import Mathlib

set_option maxRecDepth 8192
set_option exponentiation.threshold 1100

/-!
Verification of the historical window aggregation subsystem of sv-dugout-pulse
(src/src/historical_stats.py, src/src/window_grader.py, src/src/config.py).

Embedding conventions:
- Python ISO date strings ("YYYY-MM-DD") are compared lexicographically in the
  source; on valid four-digit-year dates that order coincides with chronological
  order, so dates are embedded as day ordinals (Int), and string comparison
  becomes Int comparison.  `date.today() - timedelta(days=n)` becomes `today - n`.
- Python float arithmetic is modelled by exact rationals (ℚ); IEEE-754 rounding
  of intermediate results is outside the embedding.
- Python dicts of stats are modelled as structures whose fields default to the
  `dict.get(key, default)` default used at every read site, which is
  observationally equivalent for the reads the source performs.
- Values inside a formatted-output dict are ints or strings in Python; they are
  modelled by the tagged type `JVal`.
-/

/-- The ASCII whitespace Python's `int()`/`float()` strip around a numeric
string (Python additionally accepts some unicode spaces; the stat sources
never produce those). -/
def isPySpace (c : Char) : Bool :=
  c == ' ' || c == '\t' || c == '\n' || c == '\r' || c == '\x0b' || c == '\x0c'

/-- Strip leading and trailing ASCII whitespace, as Python's numeric
conversions do before parsing. -/
def stripWs (cs : List Char) : List Char :=
  ((cs.dropWhile isPySpace).reverse.dropWhile isPySpace).reverse

/-- Loop of `parseDigitsU`: continue a digit run in which a single
underscore may appear between two digits. -/
def parseDigitsUGo (acc : Nat) : List Char → Option Nat
  | [] => some acc
  | '_' :: c :: rest =>
    if c.isDigit then parseDigitsUGo (acc * 10 + (c.toNat - 48)) rest else none
  | c :: rest =>
    if c.isDigit then parseDigitsUGo (acc * 10 + (c.toNat - 48)) rest else none

/-- Parse a nonempty ASCII digit run with optional single underscores
between digits, as Python numeric literals allow ("6_0" is 60; leading,
trailing or doubled underscores are invalid). -/
def parseDigitsU : List Char → Option Nat
  | [] => none
  | c :: rest => if c.isDigit then parseDigitsUGo (c.toNat - 48) rest else none

/-- Model of Python `int(s)` on a string: optional surrounding ASCII
whitespace, an optional sign, then digits with optional single underscores
between digits (so `int(" 6")` is 6 and `int("6_0")` is 60); any other
shape raises `ValueError`, modelled as `none`. -/
def pyStrToInt (s : String) : Option Int :=
  match stripWs s.data with
  | '-' :: rest => (parseDigitsU rest).map (fun n => -(n : Int))
  | '+' :: rest => (parseDigitsU rest).map (fun n => (n : Int))
  | cs => (parseDigitsU cs).map (fun n => (n : Int))

/-- Outcome of Python `float(s)` on a dot-free string: a finite value kept
exact as (sign, integer mantissa, base-10 exponent), an infinity, or a NaN. -/
inductive PyFloatVal where
  | finite (neg : Bool) (m : Nat) (e : Int)
  | infinite
  | nan
  deriving DecidableEq, Repr

/-- Split a character list at the first 'e'/'E' (a float literal's exponent
marker), if any. -/
def splitOnExpChar : List Char → List Char × Option (List Char)
  | [] => ([], none)
  | c :: rest =>
    if c = 'e' ∨ c = 'E' then ([], some rest)
    else
      let p := splitOnExpChar rest
      (c :: p.1, p.2)

/-- Parse the optionally signed digits of a float literal's exponent. -/
def parseExp : List Char → Option Int
  | '-' :: rest => (parseDigitsU rest).map (fun n => -(n : Int))
  | '+' :: rest => (parseDigitsU rest).map (fun n => (n : Int))
  | cs => (parseDigitsU cs).map (fun n => (n : Int))

/-- Exact test for whether m × 10^e reaches 2^1024, the IEEE double
overflow threshold at which Python's `float()` returns an infinity (the
half-ulp rounding right at that boundary is outside the model). -/
def floatOverflows (m : Nat) (e : Int) : Bool :=
  if 0 ≤ e then 2 ^ 1024 ≤ m * 10 ^ e.toNat
  else 2 ^ 1024 * 10 ^ (-e).toNat ≤ m

/-- Model of Python `float(s)` for dot-free strings (the only shapes the
innings parser's float branch receives): optional whitespace and sign, then
"inf"/"infinity"/"nan" (case-insensitive) or digits-with-underscores with
an optional e/E exponent.  Finite values are kept exact; a literal whose
magnitude reaches 2^1024 overflows to an infinity as the IEEE conversion
does.  Any other shape raises `ValueError`, modelled as `none` (unicode
digit and space forms are outside the model). -/
def pyParseFloatNoDot (s : String) : Option PyFloatVal :=
  let cs := stripWs s.data
  let sb : Bool × List Char :=
    match cs with
    | '-' :: rest => (true, rest)
    | '+' :: rest => (false, rest)
    | rest => (false, rest)
  let neg := sb.1
  let body := sb.2
  let lower := body.map Char.toLower
  if lower = "inf".data ∨ lower = "infinity".data then some .infinite
  else if lower = "nan".data then some .nan
  else
    match parseDigitsU (splitOnExpChar body).1, (splitOnExpChar body).2 with
    | some m, none =>
      if floatOverflows m 0 then some .infinite else some (.finite neg m 0)
    | some m, some ecs =>
      match parseExp ecs with
      | some e =>
        if floatOverflows m e then some .infinite else some (.finite neg m e)
      | none => none
    | none, _ => none

/-- Model of Python `int()` applied to a finite float value (sign, mantissa
m, exponent e): truncation toward zero of ±(m × 10^e). -/
def pyFloatInt (neg : Bool) (m : Nat) (e : Int) : Int :=
  let mag : Nat := if 0 ≤ e then m * 10 ^ e.toNat else m / 10 ^ (-e).toNat
  if neg then -(mag : Int) else (mag : Int)

/-- Model of Python `str.split('.')`: split a character list at every `'.'`,
keeping empty pieces, always returning at least one piece. -/
def pySplitDot : List Char → List (List Char)
  | [] => [[]]
  | c :: rest =>
    match pySplitDot rest with
    | [] => [[c]]
    | h :: t => if c = '.' then [] :: h :: t else (c :: h) :: t

/-- Embeds `NCAABaselineManager._ip_to_outs` and the semantically identical
`MLBHistoricalFetcher._ip_to_outs` (historical_stats.py lines 272-284 and
453-462), error path included.  If the string contains a dot, it is split
on dots and `int(parts[0]) * 3 + int(parts[1])` is returned, with any
`ValueError` caught by the `except (ValueError, IndexError)` clause and
turned into 0.  Otherwise the result is `int(float(s)) * 3`: a float parse
failure or a NaN raises `ValueError`, again caught into 0 — but an infinite
float (e.g. "inf" or "1e400") makes `int()` raise `OverflowError`, which
that `except` clause does NOT catch, so the fault propagates out of the
function; that uncaught raise is modelled as `.error ()`. -/
def ip_to_outs_checked (s : String) : Except Unit Int :=
  if '.' ∈ s.data then
    match pySplitDot s.data with
    | p0 :: p1 :: _ =>
      match pyStrToInt (String.mk p0), pyStrToInt (String.mk p1) with
      | some a, some b => .ok (a * 3 + b)
      | _, _ => .ok 0
    | _ => .ok 0
  else
    match pyParseFloatNoDot s with
    | some (.finite neg m e) => .ok (pyFloatInt neg m e * 3)
    | some .infinite => .error ()
    | some .nan => .ok 0
    | none => .ok 0

/-- Total view of the innings-pitched-to-outs conversion used by the
aggregation embeddings below: it agrees with the source wherever the source
returns normally, and yields 0 on the inputs where the source instead
raises the uncaught OverflowError of `ip_to_outs_checked` — inputs the
stat-shaped strings reaching the aggregators never take.  The error path
itself is settled by the claim C5 theorem. -/
def ip_to_outs (s : String) : Int :=
  match ip_to_outs_checked s with
  | .ok v => v
  | .error _ => 0

/-- Embeds both copies of `_outs_to_ip_display` (historical_stats.py lines
286-293 and 464-469): `outs // 3` and `outs % 3` (Python floor division and
floor modulus, i.e. `Int.fdiv` / `Int.emod`), rendered as "N" when the
remainder is 0, else "N.p". -/
def outs_to_ip_display (outs : Int) : String :=
  let innings := Int.fdiv outs 3
  let part := Int.emod outs 3
  if part = 0 then toString innings else toString innings ++ "." ++ toString part

example : ip_to_outs "6.1" = 19 := by decide
example : ip_to_outs "6.4" = 22 := by decide
example : ip_to_outs "0.2" = 2 := by decide
example : ip_to_outs "abc" = 0 := by decide
example : ip_to_outs "6" = 18 := by decide
example : ip_to_outs "6.x" = 0 := by decide
example : ip_to_outs "" = 0 := by decide
example : ip_to_outs " 6" = 18 := by decide
example : ip_to_outs "6_0" = 180 := by decide
example : ip_to_outs "1e5" = 300000 := by decide
example : ip_to_outs_checked "inf" = .error () := rfl
example : ip_to_outs_checked "-Infinity" = .error () := rfl
example : ip_to_outs_checked "1e400" = .error () := rfl
example : ip_to_outs_checked "nan" = .ok 0 := rfl
example : ip_to_outs_checked "5e-1" = .ok 0 := rfl
example : outs_to_ip_display 19 = "6.1" := by decide
example : outs_to_ip_display 4 = "1.1" := by decide
example : outs_to_ip_display 6 = "2" := by decide

/-!
Data model for the NCAA baseline store (historical_stats.py lines 301-469).

A stored cumulative line is a JSON dict; the fields below are exactly the keys
`calculate_window_stats` reads, each defaulting to the `get(key, 0)` default.
`ip` is kept as the string the code feeds to `str(...)` before `_ip_to_outs`.
-/

/-- Cumulative stats line as stored in a baseline snapshot and as passed for
`current`; fields default like the `dict.get(key, 0)` reads in
`calculate_window_stats`. -/
structure CumulativeLine where
  ip : String := "0"
  er : Int := 0
  h : Int := 0
  bb : Int := 0
  k : Int := 0
  pa : Int := 0
  ab : Int := 0
  hr : Int := 0
  hbp : Int := 0
  doubles : Int := 0
  triples : Int := 0
  deriving DecidableEq, Repr

/-- One dated snapshot: `{"date": ..., "cumulative": ...}` with the ISO date
string embedded as a day ordinal. -/
structure Snapshot where
  date : Int
  cumulative : CumulativeLine
  deriving DecidableEq, Repr

/-- Embeds `NCAABaselineManager.store_baseline` (lines 335-362) acting on one
player key's snapshot list (the method touches no other key; a missing key is
first given an empty list, which the empty-list state also models).  It removes
any snapshot with the same date, appends the new snapshot, then keeps only
snapshots whose date is at least `today - 45`. -/
def store_baseline (snaps : List Snapshot) (stats : CumulativeLine)
    (asOf today : Int) : List Snapshot :=
  let kept := snaps.filter (fun s => s.date ≠ asOf)
  let appended := kept ++ [{ date := asOf, cumulative := stats }]
  appended.filter (fun s => today - 45 ≤ s.date)

/-- One step of the best-snapshot scan in `get_baseline` (lines 375-381):
`if snap["date"] <= target_date: if best is None or snap["date"] > best["date"]:
best = snap`. -/
def betterSnap (target : Int) (best : Option Snapshot) (snap : Snapshot) :
    Option Snapshot :=
  if snap.date ≤ target then
    match best with
    | none => some snap
    | some b => if b.date < snap.date then some snap else some b
  else best

/-- Embeds `NCAABaselineManager.get_baseline` (lines 364-382) on one player
key's snapshot list: `target_date = today - days_ago`, scan for the latest
snapshot with date on or before the target, return its cumulative line, or
`None` when no such snapshot exists (also covering the absent-key early
return, which yields `None` just like an empty list). -/
def get_baseline (snaps : List Snapshot) (daysAgo today : Int) :
    Option CumulativeLine :=
  let target := today - daysAgo
  (snaps.foldl (betterSnap target) none).map Snapshot.cumulative

example :
    get_baseline [⟨1, { h := 1 }⟩, ⟨10, { h := 2 }⟩] 0 5 = some { h := 1 } := by
  decide
example : get_baseline [⟨1, { h := 1 }⟩, ⟨10, { h := 2 }⟩] 0 0 = none := by
  decide
example :
    store_baseline [] { h := 1 } 100 100 = [⟨100, { h := 1 }⟩] := by decide
example : store_baseline [] { h := 1 } (-46) 0 = [] := by decide
example :
    store_baseline [⟨100, { h := 1 }⟩] { h := 2 } 100 100
      = [⟨100, { h := 2 }⟩] := by decide

/-!
Window stats results (the dicts returned by `_aggregate_batter_stats`,
`_aggregate_pitcher_stats` and `calculate_window_stats`).  The two producers
share the field names `_format_stats` and the graders read; fields a producer
does not set default to 0, matching the `get(key, 0)` reads downstream.
The `is_pitcher` flag becomes the variant tag of `WindowStats`.
-/

/-- Hitter window line: union of the fields set by `_aggregate_batter_stats`
and by the hitter branch of `calculate_window_stats`. -/
structure HitterWindow where
  games_played : Int := 0
  pa : Int := 0
  ab : Int := 0
  h : Int := 0
  hr : Int := 0
  rbi : Int := 0
  r : Int := 0
  bb : Int := 0
  k : Int := 0
  sb : Int := 0
  avg : ℚ := 0
  obp : ℚ := 0
  slg : ℚ := 0
  ops : ℚ := 0
  deriving DecidableEq, Repr

/-- Pitcher window line: union of the fields set by `_aggregate_pitcher_stats`
and by the pitcher branch of `calculate_window_stats`. -/
structure PitcherWindow where
  games_played : Int := 0
  ip : ℚ := 0
  ip_display : String := "--"
  h : Int := 0
  er : Int := 0
  bb : Int := 0
  k : Int := 0
  hr : Int := 0
  w : Int := 0
  l : Int := 0
  sv : Int := 0
  era : ℚ := 0
  whip : ℚ := 0
  deriving DecidableEq, Repr

/-- A produced stats dict, tagged by its `is_pitcher` flag. -/
inductive WindowStats where
  | pitcher (p : PitcherWindow)
  | hitter (h : HitterWindow)
  deriving DecidableEq, Repr

/-- Embeds `NCAABaselineManager.calculate_window_stats` (lines 384-451):
returns `None` when the baseline is `None`; otherwise field-wise
`current - baseline` deltas with rates derived from the deltas, guarded to 0
on non-positive denominators.  `is_pitcher` is `position == "Pitcher"`. -/
def calculate_window_stats (current : CumulativeLine)
    (baseline : Option CumulativeLine) (position : String) :
    Option WindowStats :=
  match baseline with
  | none => none
  | some b =>
    if position = "Pitcher" then
      let ipCurrent := ip_to_outs current.ip
      let ipBaseline := ip_to_outs b.ip
      let outs := ipCurrent - ipBaseline
      let ip : ℚ := (outs : ℚ) / 3
      let er := current.er - b.er
      let h := current.h - b.h
      let bb := current.bb - b.bb
      let k := current.k - b.k
      let era : ℚ := if 0 < ip then ((er : ℚ) * 9) / ip else 0
      let whip : ℚ := if 0 < ip then ((bb : ℚ) + (h : ℚ)) / ip else 0
      some (.pitcher
        { ip := ip
          ip_display := (outs_to_ip_display outs)
          k := k
          bb := bb
          h := h
          er := er
          era := era
          whip := whip })
    else
      let pa := current.pa - b.pa
      let ab := current.ab - b.ab
      let h := current.h - b.h
      let hr := current.hr - b.hr
      let bb := current.bb - b.bb
      let hbp := current.hbp - b.hbp
      let doubles := current.doubles - b.doubles
      let triples := current.triples - b.triples
      let avg : ℚ := if 0 < ab then (h : ℚ) / (ab : ℚ) else 0
      let obp : ℚ :=
        if 0 < pa then ((h : ℚ) + (bb : ℚ) + (hbp : ℚ)) / (pa : ℚ) else 0
      let singles := h - doubles - triples - hr
      let tb := singles + 2 * doubles + 3 * triples + 4 * hr
      let slg : ℚ := if 0 < ab then (tb : ℚ) / (ab : ℚ) else 0
      let ops := obp + slg
      some (.hitter
        { pa := pa
          ab := ab
          h := h
          hr := hr
          bb := bb
          avg := avg
          obp := obp
          slg := slg
          ops := ops })

example :
    calculate_window_stats { h := 3, ab := 10, pa := 10 } none "Hitter"
      = none := by decide

/-!
MLB per-game-log aggregation (historical_stats.py lines 152-293).  Each game
record's `stat` dict is modelled with the exact keys the aggregators read,
defaulting to the `stat.get(key, 0)` / `stat.get("inningsPitched", "0")`
defaults.
-/

/-- One per-game `stat` record, fields defaulting like the `get` reads. -/
structure GameStat where
  inningsPitched : String := "0"
  atBats : Int := 0
  hits : Int := 0
  doubles : Int := 0
  triples : Int := 0
  homeRuns : Int := 0
  rbi : Int := 0
  runs : Int := 0
  baseOnBalls : Int := 0
  strikeOuts : Int := 0
  stolenBases : Int := 0
  hitByPitch : Int := 0
  sacFlies : Int := 0
  earnedRuns : Int := 0
  wins : Int := 0
  losses : Int := 0
  saves : Int := 0
  deriving DecidableEq, Repr

/-- Running batting totals of the loop in `_aggregate_batter_stats`. -/
structure BatTotals where
  ab : Int := 0
  h : Int := 0
  doubles : Int := 0
  triples : Int := 0
  hr : Int := 0
  rbi : Int := 0
  r : Int := 0
  bb : Int := 0
  k : Int := 0
  sb : Int := 0
  hbp : Int := 0
  sf : Int := 0
  deriving DecidableEq, Repr

/-- One iteration of the batting totals loop (lines 170-183). -/
def batTotalsStep (t : BatTotals) (g : GameStat) : BatTotals :=
  { ab := t.ab + g.atBats
    h := t.h + g.hits
    doubles := t.doubles + g.doubles
    triples := t.triples + g.triples
    hr := t.hr + g.homeRuns
    rbi := t.rbi + g.rbi
    r := t.r + g.runs
    bb := t.bb + g.baseOnBalls
    k := t.k + g.strikeOuts
    sb := t.sb + g.stolenBases
    hbp := t.hbp + g.hitByPitch
    sf := t.sf + g.sacFlies }

/-- Embeds `MLBHistoricalFetcher._aggregate_batter_stats` (lines 152-216):
sum the counting stats across games, compute PA, and derive the slash line
with zero-denominator guards. -/
def aggregate_batter_stats (games : List GameStat) : HitterWindow :=
  let t := games.foldl batTotalsStep {}
  let pa := t.ab + t.bb + t.hbp + t.sf
  let avg : ℚ := if 0 < t.ab then (t.h : ℚ) / (t.ab : ℚ) else 0
  let obp : ℚ :=
    if 0 < pa then ((t.h : ℚ) + (t.bb : ℚ) + (t.hbp : ℚ)) / (pa : ℚ) else 0
  let singles := t.h - t.doubles - t.triples - t.hr
  let tb := singles + 2 * t.doubles + 3 * t.triples + 4 * t.hr
  let slg : ℚ := if 0 < t.ab then (tb : ℚ) / (t.ab : ℚ) else 0
  let ops := obp + slg
  { games_played := games.length
    pa := pa
    ab := t.ab
    h := t.h
    hr := t.hr
    rbi := t.rbi
    r := t.r
    bb := t.bb
    k := t.k
    sb := t.sb
    avg := avg
    obp := obp
    slg := slg
    ops := ops }

/-- Running pitching totals of the loop in `_aggregate_pitcher_stats`;
innings pitched is carried as outs. -/
structure PitchTotals where
  outs : Int := 0
  h : Int := 0
  r : Int := 0
  er : Int := 0
  bb : Int := 0
  k : Int := 0
  hr : Int := 0
  w : Int := 0
  l : Int := 0
  sv : Int := 0
  deriving DecidableEq, Repr

/-- One iteration of the pitching totals loop (lines 233-246); innings
pitched is converted to outs by `_ip_to_outs` and summed as outs. -/
def pitchTotalsStep (t : PitchTotals) (g : GameStat) : PitchTotals :=
  { outs := t.outs + ip_to_outs g.inningsPitched
    h := t.h + g.hits
    r := t.r + g.runs
    er := t.er + g.earnedRuns
    bb := t.bb + g.baseOnBalls
    k := t.k + g.strikeOuts
    hr := t.hr + g.homeRuns
    w := t.w + g.wins
    l := t.l + g.losses
    sv := t.sv + g.saves }

/-- Embeds `MLBHistoricalFetcher._aggregate_pitcher_stats` (lines 218-270):
sum the counting stats across games with innings pitched summed as outs,
convert back to IP, and derive ERA/WHIP with zero-denominator guards. -/
def aggregate_pitcher_stats (games : List GameStat) : PitcherWindow :=
  let t := games.foldl pitchTotalsStep {}
  let ip : ℚ := (t.outs : ℚ) / 3
  let era : ℚ := if 0 < ip then ((t.er : ℚ) * 9) / ip else 0
  let whip : ℚ := if 0 < ip then ((t.bb : ℚ) + (t.h : ℚ)) / ip else 0
  { games_played := games.length
    ip := ip
    ip_display := (outs_to_ip_display t.outs)
    h := t.h
    er := t.er
    bb := t.bb
    k := t.k
    hr := t.hr
    w := t.w
    l := t.l
    sv := t.sv
    era := era
    whip := whip }

example :
    (aggregate_pitcher_stats
      [{ inningsPitched := "0.2" }, { inningsPitched := "0.2" }]).ip_display
      = "1.1" := by decide
example :
    (aggregate_batter_stats [{ atBats := 4, hits := 2, homeRuns := 1 },
      { atBats := 3, hits := 1 }]).ab = 7 := by decide

/-!
Window grading (window_grader.py, thresholds from config.py lines 59-71).
-/

def WINDOW_HITTER_HOT_OPS : ℚ := 1.000
def WINDOW_HITTER_SOLID_OPS : ℚ := 0.750
def WINDOW_HITTER_QUIET_OPS : ℚ := 0.550
def WINDOW_PITCHER_HOT_ERA : ℚ := 2.00
def WINDOW_PITCHER_SOLID_ERA : ℚ := 3.50
def WINDOW_PITCHER_QUIET_ERA : ℚ := 5.00

def GRADE_HOT : String := "🔥 Hot"
def GRADE_SOLID : String := "✅ Solid"
def GRADE_QUIET : String := "😐 Quiet"
def GRADE_COLD : String := "🥶 Cold"
def GRADE_INSUFFICIENT : String := "— Insufficient"

/-- Embeds `grade_hitter_window` (window_grader.py lines 27-46): descending
OPS thresholds, boundary values taken by the better tier (`>=`). -/
def grade_hitter_window (stats : HitterWindow) (window : String) : String :=
  if WINDOW_HITTER_HOT_OPS ≤ stats.ops then GRADE_HOT
  else if WINDOW_HITTER_SOLID_OPS ≤ stats.ops then GRADE_SOLID
  else if WINDOW_HITTER_QUIET_OPS ≤ stats.ops then GRADE_QUIET
  else GRADE_COLD

/-- Embeds `grade_pitcher_window` (window_grader.py lines 49-68): ascending
ERA thresholds, boundary values taken by the better tier (`<=`).  The source
reads `stats.get("era", 99)`; every stats dict this repository passes in
carries an `era` key, which the total `era` field models. -/
def grade_pitcher_window (stats : PitcherWindow) (window : String) : String :=
  if stats.era ≤ WINDOW_PITCHER_HOT_ERA then GRADE_HOT
  else if stats.era ≤ WINDOW_PITCHER_SOLID_ERA then GRADE_SOLID
  else if stats.era ≤ WINDOW_PITCHER_QUIET_ERA then GRADE_QUIET
  else GRADE_COLD

/-- Embeds `WINDOW_MIN_PA.get(window, 5)` over the config map
`{"7d": 5, "30d": 20, "season": 50}`. -/
def windowMinPa (window : String) : Int :=
  if window = "7d" then 5
  else if window = "30d" then 20
  else if window = "season" then 50
  else 5

/-- Embeds `WINDOW_MIN_IP.get(window, 2.0)` over the config map
`{"7d": 2.0, "30d": 8.0, "season": 20.0}`. -/
def windowMinIp (window : String) : ℚ :=
  if window = "7d" then 2.0
  else if window = "30d" then 8.0
  else if window = "season" then 20.0
  else 2.0

/-!
Display formatting (`WindowStatsAggregator._format_stats`, lines 587-617) and
grade gating (`_calculate_grade`, lines 619-634).
-/

/-- A value of a formatted-output dict: Python leaves counting stats as ints
and renders rates and sentinels as strings. -/
inductive JVal where
  | jint (n : Int)
  | jstr (s : String)
  deriving DecidableEq, Repr

/-- Model of Python `int()` applied to a number: truncation toward zero,
which is the floor for nonnegative values and the negated floor of the
negation for negative values. -/
def pyIntOfRat (q : ℚ) : Int :=
  if q < 0 then -⌊-q⌋ else ⌊q⌋

/-- Left-pad a string with the digit 0 to width `w` (the padding `%0wd`
performs on the digits of a nonnegative value). -/
def zeroPad (w : Nat) (s : String) : String :=
  String.mk (List.replicate (w - s.length) '0') ++ s

/-- Model of Python `f"{n:03d}"`: minimum width 3 including any sign,
zero-padded. -/
def py03d (n : Int) : String :=
  if n < 0 then "-" ++ zeroPad 2 (toString n.natAbs)
  else zeroPad 3 (toString n.toNat)

/-- Embeds the rate rendering `f".{int(x * 1000):03d}"[1:]` of
`_format_stats` (lines 613-616): truncate `x * 1000` toward zero with
`int()`, format it with `%03d` after a leading "." which the `[1:]` slice
immediately removes again. -/
def fmtRate (q : ℚ) : String :=
  py03d (pyIntOfRat (q * 1000))

/-- Helper for `fmt2f`: render a nonnegative number of hundredths as
"units.hh". -/
def hundredthsDisplay (m : Nat) : String :=
  toString (m / 100) ++ "." ++ zeroPad 2 (toString (m % 100))

/-- Model of rounding to a whole number of hundredths with ties to even, the
rounding Python `f"{x:.2f}"` performs (up to IEEE-754 representation of `x`,
which is outside the embedding). -/
def roundHundredths (q : ℚ) : Int :=
  let x := q * 100
  let n := ⌊x⌋
  let frac := x - (n : ℚ)
  if 1 / 2 < frac then n + 1
  else if frac = 1 / 2 ∧ Int.emod (n + 1) 2 = 0 then n + 1
  else n

/-- Model of Python `f"{x:.2f}"`: fixed-point rendering with two decimals. -/
def fmt2f (q : ℚ) : String :=
  let n := roundHundredths q
  if n < 0 then "-" ++ hundredthsDisplay n.natAbs
  else hundredthsDisplay n.toNat

/-- Formatted pitcher fields, the dict built at lines 596-602. -/
structure FormattedPitcher where
  ip : JVal
  k : JVal
  bb : JVal
  era : JVal
  whip : JVal
  deriving DecidableEq, Repr

/-- Formatted hitter fields, the dict built at lines 608-617. -/
structure FormattedHitter where
  pa : JVal
  ab : JVal
  h : JVal
  hr : JVal
  avg : JVal
  obp : JVal
  slg : JVal
  ops : JVal
  deriving DecidableEq, Repr

/-- A formatted stats dict, tagged like its source stats dict. -/
inductive FormattedStats where
  | pitcher (p : FormattedPitcher)
  | hitter (h : FormattedHitter)
  deriving DecidableEq, Repr

/-- Embeds `WindowStatsAggregator._format_stats` (lines 587-617): the
`is_pitcher` dispatch is the variant tag; below the window's minimum sample
(`ip < WINDOW_MIN_IP.get(window, 2.0)` or `pa < WINDOW_MIN_PA.get(window, 5)`)
every field renders as the sentinel "--". -/
def format_stats (stats : WindowStats) (window : String) : FormattedStats :=
  match stats with
  | .pitcher p =>
    let sparse := p.ip < windowMinIp window
    .pitcher
      { ip := if sparse then .jstr "--" else .jstr p.ip_display
        k := if sparse then .jstr "--" else .jint p.k
        bb := if sparse then .jstr "--" else .jint p.bb
        era := if sparse then .jstr "--" else .jstr (fmt2f p.era)
        whip := if sparse then .jstr "--" else .jstr (fmt2f p.whip) }
  | .hitter hs =>
    let sparse := hs.pa < windowMinPa window
    .hitter
      { pa := if sparse then .jstr "--" else .jint hs.pa
        ab := if sparse then .jstr "--" else .jint hs.ab
        h := if sparse then .jstr "--" else .jint hs.h
        hr := if sparse then .jstr "--" else .jint hs.hr
        avg := if sparse then .jstr "--" else .jstr (fmtRate hs.avg)
        obp := if sparse then .jstr "--" else .jstr (fmtRate hs.obp)
        slg := if sparse then .jstr "--" else .jstr (fmtRate hs.slg)
        ops := if sparse then .jstr "--" else .jstr (fmtRate hs.ops) }

/-- Embeds `WindowStatsAggregator._calculate_grade` (lines 619-634): below
the window's minimum sample the grade is the insufficient marker, otherwise
the window grader's tier. -/
def calculate_grade (stats : WindowStats) (window : String) : String :=
  match stats with
  | .pitcher p =>
    if p.ip < windowMinIp window then GRADE_INSUFFICIENT
    else grade_pitcher_window p window
  | .hitter hs =>
    if hs.pa < windowMinPa window then GRADE_INSUFFICIENT
    else grade_hitter_window hs window

/-- Embeds the NCAA strategy branch of
`WindowStatsAggregator._build_window_entry` (lines 538-543) together with the
snapshot-store state it threads: `baseline = get_baseline(name, team,
days_ago)`, `current = get_baseline(name, team, 0)`, and
`stats = calculate_window_stats(current, baseline, position) if current else
None`.  The branch only reads the store; no statement in
`_build_window_entry`, `run_all_windows`, or anywhere else in the repository
calls `store_baseline`, so the returned store state is the input state. -/
def ncaa_window_stats (snaps : List Snapshot) (daysAgo today : Int)
    (position : String) : Option WindowStats × List Snapshot :=
  let baseline := get_baseline snaps daysAgo today
  let current := get_baseline snaps 0 today
  (match current with
   | some c => calculate_window_stats c baseline position
   | none => none,
   snaps)

example : fmtRate (4293 / 10000) = "429" := by
  have h : pyIntOfRat ((4293 : ℚ) / 10000 * 1000) = 429 := by
    simp only [pyIntOfRat]
    norm_num
  simp only [fmtRate, h]
  decide

example : fmtRate (1 / 20) = "050" := by
  have h : pyIntOfRat ((1 : ℚ) / 20 * 1000) = 50 := by
    simp only [pyIntOfRat]
    norm_num
  simp only [fmtRate, h]
  decide

example : fmtRate 1 = "1000" := by
  have h : pyIntOfRat ((1 : ℚ) * 1000) = 1000 := by
    simp only [pyIntOfRat]
    norm_num
  simp only [fmtRate, h]
  decide

example : fmtRate (-(1 / 2000)) = "000" := by
  have h : pyIntOfRat (-(1 / 2000 : ℚ) * 1000) = 0 := by
    simp only [pyIntOfRat]
    norm_num
  simp only [fmtRate, h]
  decide

example : fmt2f 0 = "0.00" := by
  have h : roundHundredths 0 = 0 := by
    simp only [roundHundredths]
    norm_num
  simp only [fmt2f, h]
  decide

/-!
Claim theorems.
-/

/-- Claim C5, counterexample: the claim fails in two ways.  Any fractional
digit outside {0,1,2} is supposed to yield the default 0 outs, but the
conversion performs no such validation and returns `6 * 3 + 4 = 22` for
"6.4"; and an unparsable-as-int dot-free string that floats to an infinity,
such as "inf", is supposed to yield 0 rather than a fault, but `int(inf)`
raises OverflowError, which the `except (ValueError, IndexError)` clause
does not catch. -/
theorem ip_to_outs_default_counterexample :
    ip_to_outs "6.4" = 22 ∧ (22 : Int) ≠ 0
      ∧ ip_to_outs_checked "inf" = .error () :=
  ⟨by decide, by decide, rfl⟩

/-- Claim C5 (amended): the conversion parses "N" or "N.p" and returns
`N * 3 + p` for any integer fractional part `p` — the fractional digit is
not validated against {0,1,2}, so "6.4" yields 22 — and for other inputs it
returns the default 0 outs when a dotted part fails integer parsing, or
when a dot-free string fails float parsing or parses to NaN (those
ValueErrors are caught); but a dot-free string that parses to an infinite
float (e.g. "inf" or "1e400") makes the conversion raise an uncaught
OverflowError instead of returning a default.  A dot-free finite float
truncates to an integer and contributes three outs per inning (so "1e5" is
300000 outs, " 6" is 18, "6_0" is 180). -/
theorem ip_to_outs_parse :
    (∀ (s : String) (p0 p1 : List Char) (rest : List (List Char)) (a b : Int),
      '.' ∈ s.data →
      pySplitDot s.data = p0 :: p1 :: rest →
      pyStrToInt (String.mk p0) = some a →
      pyStrToInt (String.mk p1) = some b →
      ip_to_outs_checked s = .ok (a * 3 + b))
    ∧ (∀ (s : String) (p0 p1 : List Char) (rest : List (List Char)),
      '.' ∈ s.data →
      pySplitDot s.data = p0 :: p1 :: rest →
      pyStrToInt (String.mk p0) = none ∨ pyStrToInt (String.mk p1) = none →
      ip_to_outs_checked s = .ok 0)
    ∧ (∀ (s : String) (neg : Bool) (m : Nat) (e : Int),
      '.' ∉ s.data →
      pyParseFloatNoDot s = some (.finite neg m e) →
      ip_to_outs_checked s = .ok (pyFloatInt neg m e * 3))
    ∧ (∀ s : String,
      '.' ∉ s.data →
      pyParseFloatNoDot s = none ∨ pyParseFloatNoDot s = some .nan →
      ip_to_outs_checked s = .ok 0)
    ∧ (∀ s : String,
      '.' ∉ s.data →
      pyParseFloatNoDot s = some .infinite →
      ip_to_outs_checked s = .error ())
    ∧ (∀ (s : String) (v : Int),
      ip_to_outs_checked s = .ok v → ip_to_outs s = v)
    ∧ ip_to_outs_checked "6.4" = .ok 22
    ∧ ip_to_outs_checked "inf" = .error ()
    ∧ ip_to_outs_checked "1e400" = .error ()
    ∧ ip_to_outs_checked "1e5" = .ok 300000
    ∧ ip_to_outs_checked " 6" = .ok 18
    ∧ ip_to_outs_checked "6_0" = .ok 180 := by
  refine ⟨?_, ?_, ?_, ?_, ?_, ?_, rfl, rfl, rfl, rfl, rfl, rfl⟩
  · intro s p0 p1 rest a b hdot hsplit ha hb
    simp [ip_to_outs_checked, hdot, hsplit, ha, hb]
  · intro s p0 p1 rest hdot hsplit hfail
    rcases hfail with h | h
    · simp only [ip_to_outs_checked, if_pos hdot, hsplit, h]
    · simp only [ip_to_outs_checked, if_pos hdot, hsplit, h]
      cases hp : pyStrToInt (String.mk p0) <;> simp
  · intro s neg m e hdot hp
    simp [ip_to_outs_checked, hdot, hp]
  · intro s hdot hfail
    rcases hfail with h | h <;> simp [ip_to_outs_checked, hdot, h]
  · intro s hdot hp
    simp [ip_to_outs_checked, hdot, hp]
  · intro s v h
    simp only [ip_to_outs, h]

/-- Claim C5, witness: "6.1" parses as 6 innings and 1 partial out, 19 outs,
returned normally. -/
theorem ip_to_outs_parse_witness : ip_to_outs_checked "6.1" = .ok (6 * 3 + 1) :=
  ip_to_outs_parse.1 "6.1" ['6'] ['1'] [] 6 1 (by decide) (by decide)
    (by decide) (by decide)

/-- Claim C6, counterexample: aggregating two "0.2" innings-pitched records
gives 2 + 2 = 4 outs, whose display is "1.1"; the claim calls that total
"5 outs", but the outs-equivalent of the aggregated display is 4, not 5. -/
theorem aggregate_ip_sum_counterexample :
    ip_to_outs ((aggregate_pitcher_stats
      [{ inningsPitched := "0.2" }, { inningsPitched := "0.2" }]).ip_display)
      = 4 ∧ (4 : Int) ≠ 5 := by
  decide

/-- Claim C6 (amended): aggregating two per-game pitching records whose
innings-pitched strings are both "0.2" sums them via the outs conversion and
yields "1.1" (4 outs) as the aggregated innings-pitched display, not "0.4". -/
theorem aggregate_ip_sum :
    (aggregate_pitcher_stats
      [{ inningsPitched := "0.2" }, { inningsPitched := "0.2" }]).ip_display
      = "1.1"
    ∧ ip_to_outs "1.1" = 4
    ∧ (aggregate_pitcher_stats
      [{ inningsPitched := "0.2" }, { inningsPitched := "0.2" }]).ip_display
      ≠ "0.4" := by
  refine ⟨by decide, by decide, by decide⟩

/-- Claim C7: with a zero denominator the rate derivations yield 0 instead of
a fault, in both paths: zero at-bats give AVG = SLG = 0 and zero plate
appearances give OBP = 0 in the per-game-log aggregation, zero outs give
ERA = WHIP = 0 there, and the same holds for the deltas of the baseline
path. -/
theorem zero_denominator_rates :
    (∀ games : List GameStat,
      (games.foldl batTotalsStep {}).ab = 0 →
      (aggregate_batter_stats games).avg = 0
        ∧ (aggregate_batter_stats games).slg = 0)
    ∧ (∀ games : List GameStat,
      (games.foldl batTotalsStep {}).ab + (games.foldl batTotalsStep {}).bb
          + (games.foldl batTotalsStep {}).hbp
          + (games.foldl batTotalsStep {}).sf = 0 →
      (aggregate_batter_stats games).obp = 0)
    ∧ (∀ games : List GameStat,
      (games.foldl pitchTotalsStep {}).outs = 0 →
      (aggregate_pitcher_stats games).era = 0
        ∧ (aggregate_pitcher_stats games).whip = 0)
    ∧ (∀ (c b : CumulativeLine) (pos : String),
      pos ≠ "Pitcher" →
      c.ab - b.ab = 0 →
      ∃ hw : HitterWindow,
        calculate_window_stats c (some b) pos = some (.hitter hw)
          ∧ hw.avg = 0 ∧ hw.slg = 0)
    ∧ (∀ (c b : CumulativeLine) (pos : String),
      pos ≠ "Pitcher" →
      c.pa - b.pa = 0 →
      ∃ hw : HitterWindow,
        calculate_window_stats c (some b) pos = some (.hitter hw)
          ∧ hw.obp = 0)
    ∧ (∀ (c b : CumulativeLine) (pos : String),
      pos = "Pitcher" →
      ip_to_outs c.ip - ip_to_outs b.ip = 0 →
      ∃ p : PitcherWindow,
        calculate_window_stats c (some b) pos = some (.pitcher p)
          ∧ p.era = 0 ∧ p.whip = 0) := by
  refine ⟨?_, ?_, ?_, ?_, ?_, ?_⟩
  · intro games h
    constructor <;> simp [aggregate_batter_stats, h]
  · intro games h
    simp [aggregate_batter_stats, h]
  · intro games h
    constructor <;> simp [aggregate_pitcher_stats, h]
  · intro c b pos hp h
    have he : c.ab = b.ab := by omega
    simp only [calculate_window_stats, if_neg hp]
    refine ⟨_, rfl, ?_, ?_⟩ <;> simp [he]
  · intro c b pos hp h
    have he : c.pa = b.pa := by omega
    simp only [calculate_window_stats, if_neg hp]
    exact ⟨_, rfl, by simp [he]⟩
  · intro c b pos hp h
    have he : ip_to_outs c.ip = ip_to_outs b.ip := by omega
    simp only [calculate_window_stats, if_pos hp]
    refine ⟨_, rfl, ?_, ?_⟩ <;> simp [he]

/-- Claim C7, witness: on an empty game list all totals are 0 and every rate
is 0, and a pitcher delta of identical current and baseline lines has
ERA = WHIP = 0. -/
theorem zero_denominator_rates_witness :
    ((aggregate_batter_stats []).avg = 0 ∧ (aggregate_batter_stats []).slg = 0)
    ∧ (aggregate_batter_stats []).obp = 0
    ∧ ((aggregate_pitcher_stats []).era = 0
        ∧ (aggregate_pitcher_stats []).whip = 0)
    ∧ (∃ hw : HitterWindow,
        calculate_window_stats {} (some {}) "Hitter" = some (.hitter hw)
          ∧ hw.avg = 0 ∧ hw.slg = 0)
    ∧ (∃ p : PitcherWindow,
        calculate_window_stats {} (some {}) "Pitcher" = some (.pitcher p)
          ∧ p.era = 0 ∧ p.whip = 0) :=
  ⟨zero_denominator_rates.1 [] (by decide),
   zero_denominator_rates.2.1 [] (by decide),
   zero_denominator_rates.2.2.1 [] (by decide),
   zero_denominator_rates.2.2.2.1 {} {} "Hitter" (by decide) (by decide),
   zero_denominator_rates.2.2.2.2.2 {} {} "Pitcher" rfl (by decide)⟩

/-- Claim C8: the window grader maps every hitter OPS and every pitcher ERA
to exactly one of the four tiers, with boundary values in the better tier:
OPS ≥ 1.000 is Hot, 0.750 ≤ OPS < 1.000 is Solid, 0.550 ≤ OPS < 0.750 is
Quiet, OPS < 0.550 is Cold; ERA ≤ 2.00 is Hot, 2.00 < ERA ≤ 3.50 is Solid,
3.50 < ERA ≤ 5.00 is Quiet, ERA > 5.00 is Cold. -/
theorem window_grader_tiers :
    (∀ (s : HitterWindow) (w : String),
      (WINDOW_HITTER_HOT_OPS ≤ s.ops → grade_hitter_window s w = GRADE_HOT)
      ∧ (WINDOW_HITTER_SOLID_OPS ≤ s.ops ∧ s.ops < WINDOW_HITTER_HOT_OPS →
          grade_hitter_window s w = GRADE_SOLID)
      ∧ (WINDOW_HITTER_QUIET_OPS ≤ s.ops ∧ s.ops < WINDOW_HITTER_SOLID_OPS →
          grade_hitter_window s w = GRADE_QUIET)
      ∧ (s.ops < WINDOW_HITTER_QUIET_OPS →
          grade_hitter_window s w = GRADE_COLD))
    ∧ (∀ (p : PitcherWindow) (w : String),
      (p.era ≤ WINDOW_PITCHER_HOT_ERA → grade_pitcher_window p w = GRADE_HOT)
      ∧ (WINDOW_PITCHER_HOT_ERA < p.era ∧ p.era ≤ WINDOW_PITCHER_SOLID_ERA →
          grade_pitcher_window p w = GRADE_SOLID)
      ∧ (WINDOW_PITCHER_SOLID_ERA < p.era ∧ p.era ≤ WINDOW_PITCHER_QUIET_ERA →
          grade_pitcher_window p w = GRADE_QUIET)
      ∧ (WINDOW_PITCHER_QUIET_ERA < p.era →
          grade_pitcher_window p w = GRADE_COLD)) := by
  constructor
  · intro s w
    refine ⟨fun h => ?_, fun h => ?_, fun h => ?_, fun h => ?_⟩
    · rw [grade_hitter_window, if_pos h]
    · rw [grade_hitter_window, if_neg (not_le.mpr h.2), if_pos h.1]
    · rw [grade_hitter_window, if_neg (not_le.mpr (h.2.trans_le (by norm_num
        [WINDOW_HITTER_SOLID_OPS, WINDOW_HITTER_HOT_OPS]))),
        if_neg (not_le.mpr h.2), if_pos h.1]
    · rw [grade_hitter_window,
        if_neg (not_le.mpr (h.trans_le (by norm_num
          [WINDOW_HITTER_QUIET_OPS, WINDOW_HITTER_HOT_OPS]))),
        if_neg (not_le.mpr (h.trans_le (by norm_num
          [WINDOW_HITTER_QUIET_OPS, WINDOW_HITTER_SOLID_OPS]))),
        if_neg (not_le.mpr h)]
  · intro p w
    refine ⟨fun h => ?_, fun h => ?_, fun h => ?_, fun h => ?_⟩
    · rw [grade_pitcher_window, if_pos h]
    · rw [grade_pitcher_window, if_neg (not_le.mpr h.1), if_pos h.2]
    · rw [grade_pitcher_window, if_neg (not_le.mpr ((lt_of_le_of_lt (by norm_num
        [WINDOW_PITCHER_HOT_ERA, WINDOW_PITCHER_SOLID_ERA]) h.1))),
        if_neg (not_le.mpr h.1), if_pos h.2]
    · rw [grade_pitcher_window, if_neg (not_le.mpr ((lt_of_le_of_lt (by norm_num
        [WINDOW_PITCHER_HOT_ERA, WINDOW_PITCHER_QUIET_ERA]) h))),
        if_neg (not_le.mpr ((lt_of_le_of_lt (by norm_num
          [WINDOW_PITCHER_SOLID_ERA, WINDOW_PITCHER_QUIET_ERA]) h))),
        if_neg (not_le.mpr h)]

/-- Claim C8, witness: OPS exactly 1.000 grades Hot and 0.999 grades Solid;
ERA exactly 2.00 grades Hot and 2.01 grades Solid. -/
theorem window_grader_tiers_witness :
    grade_hitter_window { ops := 1.000 } "7d" = GRADE_HOT
    ∧ grade_hitter_window { ops := 0.999 } "7d" = GRADE_SOLID
    ∧ grade_pitcher_window { era := 2.00 } "7d" = GRADE_HOT
    ∧ grade_pitcher_window { era := 2.01 } "7d" = GRADE_SOLID :=
  ⟨(window_grader_tiers.1 { ops := 1.000 } "7d").1
      (by norm_num [WINDOW_HITTER_HOT_OPS]),
   (window_grader_tiers.1 { ops := 0.999 } "7d").2.1
      (by norm_num [WINDOW_HITTER_SOLID_OPS, WINDOW_HITTER_HOT_OPS]),
   (window_grader_tiers.2 { era := 2.00 } "7d").1
      (by norm_num [WINDOW_PITCHER_HOT_ERA]),
   (window_grader_tiers.2 { era := 2.01 } "7d").2.1
      (by norm_num [WINDOW_PITCHER_HOT_ERA, WINDOW_PITCHER_SOLID_ERA])⟩

/-- Claim C9: a hitter below the window's minimum-PA threshold, or a pitcher
below the minimum-IP threshold, is graded with the insufficient marker
instead of any tier, and every formatted stat field renders as the "--"
sentinel, regardless of the raw stat values. -/
theorem insufficient_sample_gate :
    (∀ (s : HitterWindow) (w : String),
      s.pa < windowMinPa w →
      calculate_grade (.hitter s) w = GRADE_INSUFFICIENT
      ∧ format_stats (.hitter s) w = .hitter
          { pa := .jstr "--", ab := .jstr "--", h := .jstr "--"
            hr := .jstr "--", avg := .jstr "--", obp := .jstr "--"
            slg := .jstr "--", ops := .jstr "--" })
    ∧ (∀ (p : PitcherWindow) (w : String),
      p.ip < windowMinIp w →
      calculate_grade (.pitcher p) w = GRADE_INSUFFICIENT
      ∧ format_stats (.pitcher p) w = .pitcher
          { ip := .jstr "--", k := .jstr "--", bb := .jstr "--"
            era := .jstr "--", whip := .jstr "--" }) := by
  constructor
  · intro s w h
    exact ⟨by simp [calculate_grade, h], by simp [format_stats, h]⟩
  · intro p w h
    exact ⟨by simp [calculate_grade, h], by simp [format_stats, h]⟩

/-- Claim C9, witness: a hitter with 3 PA and an excellent 2.000 OPS in the
7-day window (minimum 5 PA) grades insufficient with all-sentinel fields. -/
theorem insufficient_sample_gate_witness :
    calculate_grade (.hitter { pa := 3, ops := 2 }) "7d" = GRADE_INSUFFICIENT
    ∧ format_stats (.hitter { pa := 3, ops := 2 }) "7d" = .hitter
        { pa := .jstr "--", ab := .jstr "--", h := .jstr "--"
          hr := .jstr "--", avg := .jstr "--", obp := .jstr "--"
          slg := .jstr "--", ops := .jstr "--" } :=
  insufficient_sample_gate.1 { pa := 3, ops := 2 } "7d" (by decide)

/-- Modelled from the claim's words, for comparison with the code: render a
rate by taking the floor of rate × 1000 (the claim calls the operation
"floor") and zero-padding with the same `%03d` rendering. -/
def floorRateRender (q : ℚ) : String :=
  py03d ⌊q * 1000⌋

/-- Claim C10, counterexample: flooring and truncating toward zero differ on
negative rates, which the baseline-delta path can produce.  For a gated-in
hitter line with AVG = −1/2000, the code renders "000" (Python `int()`
truncates −0.5 to 0), while the claimed floor rendering gives "-01". -/
theorem hitter_rate_format_counterexample :
    format_stats (.hitter { pa := 2000, ab := 2000, avg := -(1 / 2000) }) "7d"
      = .hitter
          { pa := .jint 2000, ab := .jint 2000, h := .jint 0, hr := .jint 0
            avg := .jstr "000", obp := .jstr "000", slg := .jstr "000"
            ops := .jstr "000" }
    ∧ floorRateRender (-(1 / 2000)) = "-01"
    ∧ ("000" : String) ≠ "-01" := by
  refine ⟨?_, ?_, by decide⟩
  · have h1 : fmtRate (-(1 / 2000 : ℚ)) = "000" := by
      have e : pyIntOfRat (-(1 / 2000 : ℚ) * 1000) = 0 := by
        simp only [pyIntOfRat]
        norm_num
      simp only [fmtRate, e]
      decide
    have h0 : fmtRate (0 : ℚ) = "000" := by
      have e : pyIntOfRat ((0 : ℚ) * 1000) = 0 := by
        simp only [pyIntOfRat]
        norm_num
      simp only [fmtRate, e]
      decide
    simp [format_stats, windowMinPa, h1, h0]
    rw [show (-2000⁻¹ : ℚ) = -(1 / 2000) from by norm_num]
    exact h1
  · have e : ⌊(-(1 / 2000 : ℚ)) * 1000⌋ = -1 := by norm_num
    simp only [floorRateRender, e]
    decide

/-- Claim C10 (amended): for every hitter window result that passes the
minimum-PA gate, each formatted rate field (avg, obp, slg, ops) is produced
by truncating rate × 1000 toward zero to an integer (Python `int()`, which
coincides with the floor only for nonnegative rates — not rounding) and
rendering it with `%03d`, zero-padded to at least three digits with no
decimal point: 0.4293 renders as "429", 0.05 renders as "050", and 1.000
renders as "1000". -/
theorem hitter_rate_format :
    ∀ (s : HitterWindow) (w : String),
      ¬ s.pa < windowMinPa w →
      format_stats (.hitter s) w = .hitter
        { pa := .jint s.pa, ab := .jint s.ab, h := .jint s.h, hr := .jint s.hr
          avg := .jstr (py03d (pyIntOfRat (s.avg * 1000)))
          obp := .jstr (py03d (pyIntOfRat (s.obp * 1000)))
          slg := .jstr (py03d (pyIntOfRat (s.slg * 1000)))
          ops := .jstr (py03d (pyIntOfRat (s.ops * 1000))) }
      ∧ py03d (pyIntOfRat ((4293 / 10000 : ℚ) * 1000)) = "429"
      ∧ py03d (pyIntOfRat ((1 / 20 : ℚ) * 1000)) = "050"
      ∧ py03d (pyIntOfRat ((1 : ℚ) * 1000)) = "1000" := by
  intro s w h
  refine ⟨by simp [format_stats, fmtRate, h], ?_, ?_, ?_⟩
  · have e : pyIntOfRat ((4293 / 10000 : ℚ) * 1000) = 429 := by
      simp only [pyIntOfRat]
      norm_num
    rw [e]
    decide
  · have e : pyIntOfRat ((1 / 20 : ℚ) * 1000) = 50 := by
      simp only [pyIntOfRat]
      norm_num
    rw [e]
    decide
  · have e : pyIntOfRat ((1 : ℚ) * 1000) = 1000 := by
      simp only [pyIntOfRat]
      norm_num
    rw [e]
    decide

/-- Claim C10, witness: a hitter with 5 PA and AVG = 0.4293 in the 7-day
window renders avg as "429" and the defaulted rates as "000". -/
theorem hitter_rate_format_witness :
    format_stats (.hitter { pa := 5, avg := 4293 / 10000 }) "7d"
      = .hitter
          { pa := .jint 5, ab := .jint 0, h := .jint 0, hr := .jint 0
            avg := .jstr "429", obp := .jstr "000", slg := .jstr "000"
            ops := .jstr "000" } := by
  have h :=
    (hitter_rate_format { pa := 5, avg := 4293 / 10000 } "7d" (by decide)).1
  rw [h]
  have e1 : pyIntOfRat ((4293 / 10000 : ℚ) * 1000) = 429 := by
    simp only [pyIntOfRat]
    norm_num
  have e0 : pyIntOfRat ((0 : ℚ) * 1000) = 0 := by
    simp only [pyIntOfRat]
    norm_num
  simp only [e1, e0]
  decide

/-- Claim C4: `calculate_window_stats` returns None exactly when the baseline
is None; otherwise every counting stat of the result is the literal
field-wise difference current − baseline (no clamping of negative values),
innings pitched is differenced in outs, and the rate stats are derived from
those deltas with the zero-denominator guards. -/
theorem calculate_window_stats_delta :
    ∀ (c b : CumulativeLine) (pos : String),
      calculate_window_stats c none pos = none
      ∧ calculate_window_stats c (some b) pos ≠ none
      ∧ (pos = "Pitcher" → ∃ p : PitcherWindow,
          calculate_window_stats c (some b) pos = some (.pitcher p)
          ∧ p.k = c.k - b.k ∧ p.bb = c.bb - b.bb ∧ p.h = c.h - b.h
          ∧ p.er = c.er - b.er
          ∧ p.ip * 3 = ((ip_to_outs c.ip - ip_to_outs b.ip : Int) : ℚ)
          ∧ p.era = (if 0 < p.ip then ((p.er : ℚ) * 9) / p.ip else 0)
          ∧ p.whip = (if 0 < p.ip then ((p.bb : ℚ) + (p.h : ℚ)) / p.ip else 0))
      ∧ (pos ≠ "Pitcher" → ∃ hw : HitterWindow,
          calculate_window_stats c (some b) pos = some (.hitter hw)
          ∧ hw.pa = c.pa - b.pa ∧ hw.ab = c.ab - b.ab ∧ hw.h = c.h - b.h
          ∧ hw.hr = c.hr - b.hr ∧ hw.bb = c.bb - b.bb
          ∧ hw.avg = (if 0 < hw.ab then (hw.h : ℚ) / (hw.ab : ℚ) else 0)
          ∧ hw.obp = (if 0 < hw.pa then
              ((hw.h : ℚ) + (hw.bb : ℚ) + ((c.hbp - b.hbp : Int) : ℚ))
                / (hw.pa : ℚ) else 0)
          ∧ hw.slg = (if 0 < hw.ab then
              (((hw.h - (c.doubles - b.doubles) - (c.triples - b.triples)
                  - hw.hr)
                + 2 * (c.doubles - b.doubles) + 3 * (c.triples - b.triples)
                + 4 * hw.hr : Int) : ℚ) / (hw.ab : ℚ) else 0)
          ∧ hw.ops = hw.obp + hw.slg) := by
  intro c b pos
  refine ⟨rfl, ?_, ?_, ?_⟩
  · by_cases hp : pos = "Pitcher" <;> simp [calculate_window_stats, hp]
  · intro hp
    simp only [calculate_window_stats, if_pos hp]
    refine ⟨_, rfl, rfl, rfl, rfl, rfl, ?_, rfl, rfl⟩
    rw [div_mul_cancel₀]
    norm_num
  · intro hp
    simp only [calculate_window_stats, if_neg hp]
    exact ⟨_, rfl, rfl, rfl, rfl, rfl, rfl, rfl, rfl, rfl, rfl⟩

/-- Claim C4, witness: a hitter whose baseline hits exceed the current hits
gets the literal negative delta H = 1 − 3 = −2 with no clamping, and a None
baseline yields None. -/
theorem calculate_window_stats_delta_witness :
    calculate_window_stats { h := 1, ab := 4, pa := 4 } none "Hitter" = none
    ∧ ∃ hw : HitterWindow,
        calculate_window_stats { h := 1, ab := 4, pa := 4 }
          (some { h := 3, ab := 2, pa := 2 }) "Hitter" = some (.hitter hw)
        ∧ hw.pa = 2 ∧ hw.ab = 2 ∧ hw.h = -2 :=
  ⟨(calculate_window_stats_delta { h := 1, ab := 4, pa := 4 }
      { h := 3, ab := 2, pa := 2 } "Hitter").1,
   match (calculate_window_stats_delta { h := 1, ab := 4, pa := 4 }
      { h := 3, ab := 2, pa := 2 } "Hitter").2.2.2 (by decide) with
   | ⟨hw, heq, hpa, hab, hh, _⟩ =>
     ⟨hw, heq, by rw [hpa]; decide, by rw [hab]; decide, by rw [hh]; decide⟩⟩

/-- Claim C2, counterexample: the claim says that after any call the store
holds exactly one snapshot for the call's date holding the passed stats, but
a call whose date is older than today − 45 is pruned immediately by the
45-day retention filter, leaving no snapshot for that date at all. -/
theorem store_baseline_per_date_counterexample :
    store_baseline [] { h := 1 } (-46) 0 = []
    ∧ ¬ ∃ s ∈ store_baseline [] { h := 1 } (-46) 0, s.date = -46 := by
  decide

/-- Claim C2 (amended): provided the call's date is within the 45-day
retention window (today − 45 ≤ date), after `store_baseline` the store holds
exactly one snapshot for that player key and date, and it holds the stats
passed in that call — so a second same-date call leaves exactly one snapshot
holding the second line; and the invariant "at most one snapshot per
player-key per calendar date" is preserved by every call, retention-pruned
or not. -/
theorem store_baseline_per_date :
    ∀ (snaps : List Snapshot) (stats : CumulativeLine) (asOf today : Int),
      (today - 45 ≤ asOf →
        (store_baseline snaps stats asOf today).filter (fun s => s.date = asOf)
          = [{ date := asOf, cumulative := stats }])
      ∧ (snaps.Pairwise (fun s t => s.date ≠ t.date) →
        (store_baseline snaps stats asOf today).Pairwise
          (fun s t => s.date ≠ t.date)) := by
  intro snaps stats asOf today
  constructor
  · intro h
    simp only [store_baseline]
    rw [List.filter_append, List.filter_append]
    rw [List.filter_filter, List.filter_filter]
    have h1 : snaps.filter
        (fun a => decide (a.date = asOf)
          && decide (today - 45 ≤ a.date) && decide (a.date ≠ asOf)) = [] := by
      rw [List.filter_eq_nil_iff]
      intro a _
      by_cases hd : a.date = asOf <;> simp [hd]
    rw [h1]
    simp [h]
    omega
  · intro hpw
    simp only [store_baseline]
    apply List.Pairwise.sublist (List.filter_sublist _)
    rw [List.pairwise_append]
    refine ⟨List.Pairwise.sublist (List.filter_sublist _) hpw,
      List.pairwise_singleton _ _, ?_⟩
    intro a ha x hx
    simp only [List.mem_singleton] at hx
    subst hx
    have := (List.mem_filter.mp ha).2
    simpa using this

/-- Claim C2, witness: writing a second line for the same date (day 100,
today 100) replaces the first, leaving exactly one snapshot for that date
holding the second line, with distinct dates preserved. -/
theorem store_baseline_per_date_witness :
    (store_baseline [⟨100, { h := 1 }⟩] { h := 2 } 100 100).filter
        (fun s => s.date = 100) = [{ date := 100, cumulative := { h := 2 } }]
    ∧ (store_baseline [⟨100, { h := 1 }⟩] { h := 2 } 100 100).Pairwise
        (fun s t => s.date ≠ t.date) :=
  ⟨(store_baseline_per_date [⟨100, { h := 1 }⟩] { h := 2 } 100 100).1
      (by decide),
   (store_baseline_per_date [⟨100, { h := 1 }⟩] { h := 2 } 100 100).2
      (by decide)⟩

/-- Claim C3: the NCAA branch of `_build_window_entry` never writes to the
snapshot store — the store state after processing a baseline-strategy player
is exactly the state before (`store_baseline` has no call site in the
repository), and on an empty store the computed stats are None; no snapshot
with today's date is ever created by an orchestration run, contradicting the
spec's stated daily-snapshot lifecycle and the manager's own docstring. -/
theorem ncaa_run_stores_no_snapshot :
    ∀ (snaps : List Snapshot) (daysAgo today : Int) (position : String),
      (ncaa_window_stats snaps daysAgo today position).2 = snaps
      ∧ (ncaa_window_stats [] daysAgo today position).1 = none :=
  fun _ _ _ _ => ⟨rfl, rfl⟩

/-- Fold invariant for the best-snapshot scan of `get_baseline`: starting
from `acc`, the scan returns `none` exactly when it started from `none` and
saw no snapshot dated on or before the target, and any returned snapshot is
the accumulator or an eligible list element, its date dominates the
accumulator's date, and it dominates every eligible date in the list. -/
theorem betterSnap_foldl (target : Int) :
    ∀ (l : List Snapshot) (acc : Option Snapshot),
      (l.foldl (betterSnap target) acc = none ↔
        acc = none ∧ ∀ s ∈ l, ¬ s.date ≤ target)
      ∧ (∀ b, l.foldl (betterSnap target) acc = some b →
          (acc = some b ∨ (b ∈ l ∧ b.date ≤ target))
          ∧ (∀ a, acc = some a → a.date ≤ b.date)
          ∧ ∀ s ∈ l, s.date ≤ target → s.date ≤ b.date) := by
  intro l
  induction l with
  | nil =>
    intro acc
    refine ⟨by simp, ?_⟩
    intro b hb
    simp only [List.foldl_nil] at hb
    refine ⟨Or.inl hb, ?_, by simp⟩
    intro a ha
    rw [hb] at ha
    exact le_of_eq (congrArg Snapshot.date (Option.some_inj.mp ha)).symm
  | cons x t ih =>
    intro acc
    have hstep : (x :: t).foldl (betterSnap target) acc
        = t.foldl (betterSnap target) (betterSnap target acc x) := rfl
    by_cases hx : x.date ≤ target
    · cases acc with
      | none =>
        have hacc : betterSnap target none x = some x := by
          simp [betterSnap, hx]
        constructor
        · rw [hstep, hacc]
          constructor
          · intro hn
            exact absurd ((ih (some x)).1.mp hn).1 (by simp)
          · rintro ⟨-, h2⟩
            exact absurd hx (h2 x (by simp))
        · intro b hb
          rw [hstep, hacc] at hb
          obtain ⟨hsrc, hdom, hmax⟩ := (ih (some x)).2 b hb
          refine ⟨?_, ?_, ?_⟩
          · rcases hsrc with h | h
            · right
              have hxb : x = b := Option.some_inj.mp h
              exact ⟨hxb ▸ List.mem_cons_self x t, hxb ▸ hx⟩
            · exact Or.inr ⟨List.mem_cons_of_mem x h.1, h.2⟩
          · intro a ha
            exact absurd ha (by simp)
          · intro s hs hsel
            rcases List.mem_cons.mp hs with rfl | hst
            · exact hdom s rfl
            · exact hmax s hst hsel
      | some a =>
        by_cases hax : a.date < x.date
        · have hacc : betterSnap target (some a) x = some x := by
            simp [betterSnap, hx, hax]
          constructor
          · rw [hstep, hacc]
            constructor
            · intro hn
              exact absurd ((ih (some x)).1.mp hn).1 (by simp)
            · rintro ⟨h1, -⟩
              exact absurd h1 (by simp)
          · intro b hb
            rw [hstep, hacc] at hb
            obtain ⟨hsrc, hdom, hmax⟩ := (ih (some x)).2 b hb
            have hxb : x.date ≤ b.date := hdom x rfl
            refine ⟨?_, ?_, ?_⟩
            · rcases hsrc with h | h
              · right
                have hxb' : x = b := Option.some_inj.mp h
                exact ⟨hxb' ▸ List.mem_cons_self x t, hxb' ▸ hx⟩
              · exact Or.inr ⟨List.mem_cons_of_mem x h.1, h.2⟩
            · intro a' ha'
              have haa : a' = a := Option.some_inj.mp ha'.symm
              exact haa ▸ le_of_lt (lt_of_lt_of_le hax hxb)
            · intro s hs hsel
              rcases List.mem_cons.mp hs with rfl | hst
              · exact hxb
              · exact hmax s hst hsel
        · have hacc : betterSnap target (some a) x = some a := by
            simp [betterSnap, hx, hax]
          constructor
          · rw [hstep, hacc]
            constructor
            · intro hn
              exact absurd ((ih (some a)).1.mp hn).1 (by simp)
            · rintro ⟨h1, -⟩
              exact absurd h1 (by simp)
          · intro b hb
            rw [hstep, hacc] at hb
            obtain ⟨hsrc, hdom, hmax⟩ := (ih (some a)).2 b hb
            have hab : a.date ≤ b.date := hdom a rfl
            refine ⟨?_, ?_, ?_⟩
            · rcases hsrc with h | h
              · exact Or.inl h
              · exact Or.inr ⟨List.mem_cons_of_mem x h.1, h.2⟩
            · intro a' ha'
              have haa : a' = a := Option.some_inj.mp ha'.symm
              exact haa ▸ hab
            · intro s hs hsel
              rcases List.mem_cons.mp hs with rfl | hst
              · exact le_trans (not_lt.mp hax) hab
              · exact hmax s hst hsel
    · have hacc : betterSnap target acc x = acc := by
        simp [betterSnap, hx]
      constructor
      · rw [hstep, hacc]
        constructor
        · intro hn
          obtain ⟨h1, h2⟩ := (ih acc).1.mp hn
          refine ⟨h1, ?_⟩
          intro s hs
          rcases List.mem_cons.mp hs with rfl | hst
          · exact hx
          · exact h2 s hst
        · rintro ⟨h1, h2⟩
          exact (ih acc).1.mpr ⟨h1, fun s hs => h2 s (List.mem_cons_of_mem x hs)⟩
      · intro b hb
        rw [hstep, hacc] at hb
        obtain ⟨hsrc, hdom, hmax⟩ := (ih acc).2 b hb
        refine ⟨?_, hdom, ?_⟩
        · rcases hsrc with h | h
          · exact Or.inl h
          · exact Or.inr ⟨List.mem_cons_of_mem x h.1, h.2⟩
        · intro s hs hsel
          rcases List.mem_cons.mp hs with rfl | hst
          · exact absurd hsel hx
          · exact hmax s hst hsel

/-- Claim C1: `get_baseline` computes the target date today − daysAgo and
returns None exactly when no stored snapshot is dated on or before the
target; otherwise it returns the cumulative line of a stored snapshot dated
on or before the target whose date dominates every snapshot dated on or
before the target — the most recent snapshot not newer than the target. -/
theorem get_baseline_spec :
    ∀ (snaps : List Snapshot) (daysAgo today : Int),
      (get_baseline snaps daysAgo today = none ↔
        ∀ s ∈ snaps, ¬ s.date ≤ today - daysAgo)
      ∧ (∀ c, get_baseline snaps daysAgo today = some c →
          ∃ s ∈ snaps, s.cumulative = c ∧ s.date ≤ today - daysAgo
            ∧ ∀ t ∈ snaps, t.date ≤ today - daysAgo → t.date ≤ s.date) := by
  intro snaps daysAgo today
  have master := betterSnap_foldl (today - daysAgo) snaps none
  constructor
  · constructor
    · intro hn
      have hf : snaps.foldl (betterSnap (today - daysAgo)) none = none := by
        cases hf : snaps.foldl (betterSnap (today - daysAgo)) none with
        | none => rfl
        | some b => simp [get_baseline, hf] at hn
      exact (master.1.mp hf).2
    · intro hall
      have hf : snaps.foldl (betterSnap (today - daysAgo)) none = none :=
        master.1.mpr ⟨rfl, hall⟩
      simp [get_baseline, hf]
  · intro c hc
    cases hf : snaps.foldl (betterSnap (today - daysAgo)) none with
    | none => simp [get_baseline, hf] at hc
    | some b =>
      simp only [get_baseline, hf, Option.map_some'] at hc
      obtain ⟨hsrc, -, hmax⟩ := master.2 b hf
      rcases hsrc with h | h
      · exact absurd h (by simp)
      · exact ⟨b, h.1, Option.some_inj.mp hc, h.2, hmax⟩

/-- Claim C1, witness: snapshots on days 1 and 10 (2024-01-01 and
2024-01-10) with target day 5 (2024-01-05, daysAgo 0 from today 5) yield the
day-1 snapshot's line, and day 1 dominates every snapshot on or before the
target. -/
theorem get_baseline_spec_witness :
    ∃ s ∈ [(⟨1, { h := 1 }⟩ : Snapshot), ⟨10, { h := 2 }⟩],
      s.cumulative = { h := 1 } ∧ s.date ≤ 5 - 0
        ∧ ∀ t ∈ [(⟨1, { h := 1 }⟩ : Snapshot), ⟨10, { h := 2 }⟩],
            t.date ≤ 5 - 0 → t.date ≤ s.date :=
  (get_baseline_spec [⟨1, { h := 1 }⟩, ⟨10, { h := 2 }⟩] 0 5).2 { h := 1 }
    (by decide)
